import Mathlib

/-!
# Verification of the Franka Desk API client

A shallow embedding of the repository `franka_desk_api_client`:

* `src/franka_desk.py` — the `FrankaDesk` class (the version the script
  imports: it exposes the public attribute `key` that the script prints);
* `franka_desk_api_client/franka_desk.py` — an older, divergent copy of the
  class, embedded as `ClientDesk`;
* `scripts/enable_franka.py` — the `enable_robot` bootstrap sequence.

Network traffic is modelled explicitly: every method that performs an HTTP
call takes the `HttpResponse` the remote would answer with, and returns the
list of `HttpRequest`s it actually issued together with an
`Except PyError`-valued outcome (Python exceptions become `.error`).
-/

namespace FrankaDeskApi

/-- An HTTP request as issued by `requests.post` / `requests.get`: method,
full URL, the JSON body (an association list; a `none` value models JSON
`null`), and extra headers (a `none` header value models Python `None`).
Basic-auth credentials are passed separately by the code and carry no
decision logic, so they are not part of the request value. -/
structure HttpRequest where
  method : String
  url : String
  jsonBody : List (String × Option String)
  headers : List (String × Option String)
  deriving Repr, DecidableEq

/-- An HTTP response: its status code and its decoded JSON object body,
modelled as an association list from field name to value (`none` models
JSON `null`). -/
structure HttpResponse where
  statusCode : Nat
  json : List (String × Option String)
  deriving Repr, DecidableEq

/-- `d.get(k)` on a decoded JSON object: `None` when the key is absent or
its value is JSON `null`. -/
def jsonGet (j : List (String × Option String)) (k : String) : Option String :=
  match j.lookup k with
  | none => none
  | some v => v

/-- The Python exceptions surfaced by this code base. -/
inductive PyError where
  | runtimeError (msg : String)
  | httpError (status : Nat)
  | attributeError (attr : String)
  | keyError (key : String)
  deriving Repr, DecidableEq

/-- The status codes `requests.Response.raise_for_status` treats as errors:
the 4xx client-error and 5xx server-error classes. -/
def errorStatus (r : HttpResponse) : Prop :=
  400 ≤ r.statusCode ∧ r.statusCode < 600

instance (r : HttpResponse) : Decidable (errorStatus r) := by
  unfold errorStatus; infer_instance

/-- `Response.raise_for_status` from the `requests` library: raises
`HTTPError` exactly for 4xx/5xx status codes, otherwise returns normally. -/
def raise_for_status (r : HttpResponse) : Except PyError Unit :=
  if errorStatus r then .error (.httpError r.statusCode) else .ok ()

/-- The message of the `RuntimeError` raised by the (unreachable, see
`has_control_method_truthy`) precondition guards. -/
def noControlMsg : String :=
  "We do not have control, you need to call the take_control function first."

/-! ## `FrankaDesk` from `src/franka_desk.py` -/

/-- The state of a `FrankaDesk` instance from `src/franka_desk.py`: the
configuration attributes set by `__init__` plus the mutable `key` attribute
(`None` until control is taken). -/
structure FrankaDesk where
  robot_ip : String
  user : String
  password : String
  name : String
  key : Option String
  deriving Repr, DecidableEq

/-- The `_url` attribute: `f"https://{robot_ip}"`. -/
def FrankaDesk.url (s : FrankaDesk) : String := "https://" ++ s.robot_ip

/-- `FrankaDesk.__init__` (the `name` parameter defaults to
`"franka_desk_client"` at every call site that omits it). -/
def FrankaDesk.init (robot_ip user password name : String) : FrankaDesk :=
  { robot_ip := robot_ip, user := user, password := password, name := name,
    key := none }

/-- The `has_control` method: `self.key is not None`. -/
def FrankaDesk.has_control (s : FrankaDesk) : Bool := s.key.isSome

/-- The truth value of the expression `self.has_control` exactly as it
appears in the guards `if not self.has_control:` of the gated methods.  The
expression is never *called* there, so in Python it denotes the bound-method
object itself, and a bound method is always truthy — regardless of the
session state. -/
def FrankaDesk.has_control_method_truthy (_ : FrankaDesk) : Bool := true

/-- `take_control`: POST `/api/system/control-token:take` with body
`{"owner": self._name}` and a 5 s timeout; `raise_for_status()`; on success
store `response.json().get("token")` into `self.key`. -/
def FrankaDesk.take_control (s : FrankaDesk) (resp : HttpResponse) :
    List HttpRequest × Except PyError FrankaDesk :=
  let req : HttpRequest :=
    { method := "POST", url := s.url ++ "/api/system/control-token:take",
      jsonBody := [("owner", some s.name)], headers := [] }
  match raise_for_status resp with
  | .error e => ([req], .error e)
  | .ok _ => ([req], .ok { s with key := jsonGet resp.json "token" })

/-- `unlock_joints`: guard `if not self.has_control:` (uncalled method, see
`has_control_method_truthy`), then POST `/api/arm/joints:unlock` with the
`X-Control-Token` header; `raise_for_status()` only when the status code is
not in `[200, 500]`. -/
def FrankaDesk.unlock_joints (s : FrankaDesk) (resp : HttpResponse) :
    List HttpRequest × Except PyError FrankaDesk :=
  if s.has_control_method_truthy = false then
    ([], .error (.runtimeError noControlMsg))
  else
    let req : HttpRequest :=
      { method := "POST", url := s.url ++ "/api/arm/joints:unlock",
        jsonBody := [], headers := [("X-Control-Token", s.key)] }
    if resp.statusCode = 200 ∨ resp.statusCode = 500 then ([req], .ok s)
    else
      match raise_for_status resp with
      | .error e => ([req], .error e)
      | .ok _ => ([req], .ok s)

/-- `lock_joints`: same guard, then POST `/api/arm/joints:lock` with the
token header and an unconditional `raise_for_status()`. -/
def FrankaDesk.lock_joints (s : FrankaDesk) (resp : HttpResponse) :
    List HttpRequest × Except PyError FrankaDesk :=
  if s.has_control_method_truthy = false then
    ([], .error (.runtimeError noControlMsg))
  else
    let req : HttpRequest :=
      { method := "POST", url := s.url ++ "/api/arm/joints:lock",
        jsonBody := [], headers := [("X-Control-Token", s.key)] }
    match raise_for_status resp with
    | .error e => ([req], .error e)
    | .ok _ => ([req], .ok s)

/-- `set_mode`: same guard, then POST `/api/system/operating-mode:change`
with body `{"desiredOperatingMode": mode}`, the token header, and an
unconditional `raise_for_status()`. -/
def FrankaDesk.set_mode (s : FrankaDesk) (mode : String) (resp : HttpResponse) :
    List HttpRequest × Except PyError FrankaDesk :=
  if s.has_control_method_truthy = false then
    ([], .error (.runtimeError noControlMsg))
  else
    let req : HttpRequest :=
      { method := "POST", url := s.url ++ "/api/system/operating-mode:change",
        jsonBody := [("desiredOperatingMode", some mode)],
        headers := [("X-Control-Token", s.key)] }
    match raise_for_status resp with
    | .error e => ([req], .error e)
    | .ok _ => ([req], .ok s)

/-- `reboot`: POST `/api/system:reboot` with basic auth only — no guard, no
token header, and the response object is discarded without
`raise_for_status()`. -/
def FrankaDesk.reboot (s : FrankaDesk) (_resp : HttpResponse) :
    List HttpRequest × Except PyError FrankaDesk :=
  let req : HttpRequest :=
    { method := "POST", url := s.url ++ "/api/system:reboot",
      jsonBody := [], headers := [] }
  ([req], .ok s)

/-- `deactivate_fci`: same guard, POST `/api/fci:deactivate` with the token
header and an unconditional `raise_for_status()`. -/
def FrankaDesk.deactivate_fci (s : FrankaDesk) (resp : HttpResponse) :
    List HttpRequest × Except PyError FrankaDesk :=
  if s.has_control_method_truthy = false then
    ([], .error (.runtimeError noControlMsg))
  else
    let req : HttpRequest :=
      { method := "POST", url := s.url ++ "/api/fci:deactivate",
        jsonBody := [], headers := [("X-Control-Token", s.key)] }
    match raise_for_status resp with
    | .error e => ([req], .error e)
    | .ok _ => ([req], .ok s)

/-- `activate_fci`: same guard, POST `/api/fci:activate` with the token
header; `raise_for_status()` only when the status code is not in
`[200, 500]` — the same tolerated-status rule as `unlock_joints`. -/
def FrankaDesk.activate_fci (s : FrankaDesk) (resp : HttpResponse) :
    List HttpRequest × Except PyError FrankaDesk :=
  if s.has_control_method_truthy = false then
    ([], .error (.runtimeError noControlMsg))
  else
    let req : HttpRequest :=
      { method := "POST", url := s.url ++ "/api/fci:activate",
        jsonBody := [], headers := [("X-Control-Token", s.key)] }
    if resp.statusCode = 200 ∨ resp.statusCode = 500 then ([req], .ok s)
    else
      match raise_for_status resp with
      | .error e => ([req], .error e)
      | .ok _ => ([req], .ok s)

/-- `get_operating_mode`: GET `/api/system/operating-mode`,
`raise_for_status()`, then return `response.json().get("status")`. -/
def FrankaDesk.get_operating_mode (s : FrankaDesk) (resp : HttpResponse) :
    List HttpRequest × Except PyError (Option String) :=
  let req : HttpRequest :=
    { method := "GET", url := s.url ++ "/api/system/operating-mode",
      jsonBody := [], headers := [] }
  match raise_for_status resp with
  | .error e => ([req], .error e)
  | .ok _ => ([req], .ok (jsonGet resp.json "status"))

/-! ## `FrankaDesk` from `franka_desk_api_client/franka_desk.py`

The older, divergent copy of the class, named `ClientDesk` here to keep the
two apart.  Python instances carry a per-instance attribute dictionary, so
the `_name` attribute is modelled as an `Option String`: `__init__` of this
version receives a `name` parameter but never stores it, so the attribute is
absent (`none`) on every freshly constructed instance, and reading
`self._name` with the attribute absent raises `AttributeError`. -/

/-- The state of a `FrankaDesk` instance from
`franka_desk_api_client/franka_desk.py`. -/
structure ClientDesk where
  robot_ip : String
  user : String
  password : String
  nameAttr : Option String
  key : Option String
  deriving Repr, DecidableEq

/-- The `_url` attribute of the older class. -/
def ClientDesk.url (s : ClientDesk) : String := "https://" ++ s.robot_ip

/-- `__init__` of the older class: stores `_robot_ip`, `_url`, `_user`,
`_password` and `_key = None` — and drops the `name` parameter without
storing it, leaving the `_name` attribute absent. -/
def ClientDesk.init (robot_ip user password _name : String) : ClientDesk :=
  { robot_ip := robot_ip, user := user, password := password,
    nameAttr := none, key := none }

/-- The `has_control` method of the older class: `self._key is not None`. -/
def ClientDesk.has_control (s : ClientDesk) : Bool := s.key.isSome

/-- Truth value of the uncalled `self.has_control` in the guards of the
older class — a bound method, always truthy (same slip as in
`FrankaDesk.has_control_method_truthy`). -/
def ClientDesk.has_control_method_truthy (_ : ClientDesk) : Bool := true

/-- `take_control` of the older class: builds the body
`{"owner": self._name}` — evaluating `self._name` raises `AttributeError`
before `requests.post` runs whenever the attribute is absent.  On the path
where the attribute exists it POSTs `/api/arm/control`,
`raise_for_status()`, then stores `response.json()["control_key"]`
(bracket indexing: `KeyError` when the field is missing). -/
def ClientDesk.take_control (s : ClientDesk) (resp : HttpResponse) :
    List HttpRequest × Except PyError ClientDesk :=
  match s.nameAttr with
  | none => ([], .error (.attributeError "_name"))
  | some nm =>
    let req : HttpRequest :=
      { method := "POST", url := s.url ++ "/api/arm/control",
        jsonBody := [("owner", some nm)], headers := [] }
    match raise_for_status resp with
    | .error e => ([req], .error e)
    | .ok _ =>
      match resp.json.lookup "control_key" with
      | none => ([req], .error (.keyError "control_key"))
      | some v => ([req], .ok { s with key := v })

/-- `unlock_joints` of the older class: the same uncalled-method guard, then
POST `/api/arm/unlock` with body `{"control-key": self._key}` and an
unconditional `raise_for_status()`. -/
def ClientDesk.unlock_joints (s : ClientDesk) (resp : HttpResponse) :
    List HttpRequest × Except PyError ClientDesk :=
  if s.has_control_method_truthy = false then
    ([], .error (.runtimeError noControlMsg))
  else
    let req : HttpRequest :=
      { method := "POST", url := s.url ++ "/api/arm/unlock",
        jsonBody := [("control-key", s.key)], headers := [] }
    match raise_for_status resp with
    | .error e => ([req], .error e)
    | .ok _ => ([req], .ok s)

/-- `lock_joints` of the older class: guard, then POST `/api/arm/lock` with
body `{"control-key": self._key}` and `raise_for_status()`. -/
def ClientDesk.lock_joints (s : ClientDesk) (resp : HttpResponse) :
    List HttpRequest × Except PyError ClientDesk :=
  if s.has_control_method_truthy = false then
    ([], .error (.runtimeError noControlMsg))
  else
    let req : HttpRequest :=
      { method := "POST", url := s.url ++ "/api/arm/lock",
        jsonBody := [("control-key", s.key)], headers := [] }
    match raise_for_status resp with
    | .error e => ([req], .error e)
    | .ok _ => ([req], .ok s)

/-- `set_mode` of the older class: guard, then POST `/api/mode` with body
`{"control-key": self._key}` and `raise_for_status()`.  The `mode`
parameter is received (default `"execution"`) but never used: the request
carries no `desiredOperatingMode` field at all. -/
def ClientDesk.set_mode (s : ClientDesk) (_mode : String) (resp : HttpResponse) :
    List HttpRequest × Except PyError ClientDesk :=
  if s.has_control_method_truthy = false then
    ([], .error (.runtimeError noControlMsg))
  else
    let req : HttpRequest :=
      { method := "POST", url := s.url ++ "/api/mode",
        jsonBody := [("control-key", s.key)], headers := [] }
    match raise_for_status resp with
    | .error e => ([req], .error e)
    | .ok _ => ([req], .ok s)

/-- `activate_fci` of the older class: guard, then POST `/api/fci/activate`
with body `{"control-key": self._key}` and an unconditional
`raise_for_status()` — no tolerated status in this version. -/
def ClientDesk.activate_fci (s : ClientDesk) (resp : HttpResponse) :
    List HttpRequest × Except PyError ClientDesk :=
  if s.has_control_method_truthy = false then
    ([], .error (.runtimeError noControlMsg))
  else
    let req : HttpRequest :=
      { method := "POST", url := s.url ++ "/api/fci/activate",
        jsonBody := [("control-key", s.key)], headers := [] }
    match raise_for_status resp with
    | .error e => ([req], .error e)
    | .ok _ => ([req], .ok s)

/-- The states of the older class reachable through its public interface:
freshly constructed instances, plus anything an operation returns normally
on any response. -/
inductive ClientReach : ClientDesk → Prop where
  | start (robot_ip user password name : String) :
      ClientReach (ClientDesk.init robot_ip user password name)
  | stepTake (s s' : ClientDesk) (resp : HttpResponse) : ClientReach s →
      (s.take_control resp).2 = .ok s' → ClientReach s'
  | stepUnlock (s s' : ClientDesk) (resp : HttpResponse) : ClientReach s →
      (s.unlock_joints resp).2 = .ok s' → ClientReach s'
  | stepLock (s s' : ClientDesk) (resp : HttpResponse) : ClientReach s →
      (s.lock_joints resp).2 = .ok s' → ClientReach s'
  | stepSetMode (s s' : ClientDesk) (mode : String) (resp : HttpResponse) :
      ClientReach s → (s.set_mode mode resp).2 = .ok s' → ClientReach s'
  | stepActivate (s s' : ClientDesk) (resp : HttpResponse) : ClientReach s →
      (s.activate_fci resp).2 = .ok s' → ClientReach s'

/-! ## The bootstrap script `scripts/enable_franka.py`

`enable_robot` imports `FrankaDesk` from the module `franka_desk` — the
version of `src/franka_desk.py`, the only one that defines the public
attribute `key` the script prints — and drives it through:
`take_control`; on any exception `reboot`, sleep, poll
`get_operating_mode` until it returns `"Execution"`, then retry
`take_control` once (exceptions on this recovery path propagate);
then `unlock_joints` and `activate_fci`. -/

/-- The operations `enable_robot` invokes, for trace bookkeeping. -/
inductive CallName where
  | takeControl
  | reboot
  | getOperatingMode
  | unlockJoints
  | activateFci
  deriving Repr, DecidableEq

/-- One invocation in an `enable_robot` run: which method was called and the
value of the session's `key` attribute at the moment of the call. -/
structure TraceEntry where
  call : CallName
  keyAtCall : Option String
  deriving Repr, DecidableEq

/-- The remote's behaviour, one response stream per endpoint: the n-th
`take_control` call receives `takeResps n`, the n-th
`get_operating_mode` poll receives `pollResps n`, and so on. -/
structure Transport where
  takeResps : Nat → HttpResponse
  rebootResp : HttpResponse
  pollResps : Nat → HttpResponse
  unlockResp : HttpResponse
  activateResp : HttpResponse

/-- The recovery poll loop of `enable_robot`:
`while franka_desk.get_operating_mode() != "Execution": time.sleep(2.0)`.
Each loop-condition test performs one `get_operating_mode` call; `i` is the
index of the next poll and `fuel` bounds the modelled unrolling (`none`
means the loop has not terminated within `fuel` polls — the source has no
bound of its own).  Returns the polls' trace and either the exception a
poll raised or `()` once a poll returned `"Execution"`. -/
def pollLoop (s : FrankaDesk) (polls : Nat → HttpResponse) :
    Nat → Nat → Option (List TraceEntry × Except PyError Unit)
  | _, 0 => none
  | i, fuel + 1 =>
    let entry : TraceEntry := ⟨.getOperatingMode, s.key⟩
    match (s.get_operating_mode (polls i)).2 with
    | .error e => some ([entry], .error e)
    | .ok reading =>
      if reading = some "Execution" then some ([entry], .ok ())
      else
        match pollLoop s polls (i + 1) fuel with
        | none => none
        | some (t, res) => some (entry :: t, res)

/-- The tail of `enable_robot` once control acquisition returned normally:
`unlock_joints()` then `activate_fci()`; any exception propagates. -/
def finishPhase (s : FrankaDesk) (T : Transport) :
    List TraceEntry × Except PyError FrankaDesk :=
  let eU : TraceEntry := ⟨.unlockJoints, s.key⟩
  match (s.unlock_joints T.unlockResp).2 with
  | .error e => ([eU], .error e)
  | .ok s1 =>
    let eA : TraceEntry := ⟨.activateFci, s1.key⟩
    match (s1.activate_fci T.activateResp).2 with
    | .error e => ([eU, eA], .error e)
    | .ok s2 => ([eU, eA], .ok s2)

/-- `enable_robot` from `scripts/enable_franka.py`, run against a
`Transport` and `fuel` poll-loop unrollings (`none` = still polling after
`fuel` polls).  Yields the trace of calls made and the final outcome: the
final session state, or the first uncaught exception.  Only the *first*
`take_control` sits inside the `try`/`except`; exceptions from `reboot`,
the polls, the retried `take_control`, `unlock_joints` and `activate_fci`
all propagate. -/
def enable_robot (robot_ip user password : String) (T : Transport)
    (fuel : Nat) : Option (List TraceEntry × Except PyError FrankaDesk) :=
  let s0 := FrankaDesk.init robot_ip user password "franka_desk_client"
  let eT0 : TraceEntry := ⟨.takeControl, s0.key⟩
  match (s0.take_control (T.takeResps 0)).2 with
  | .ok s1 => some (eT0 :: (finishPhase s1 T).1, (finishPhase s1 T).2)
  | .error _ =>
    let eR : TraceEntry := ⟨.reboot, s0.key⟩
    match (s0.reboot T.rebootResp).2 with
    | .error e => some ([eT0, eR], .error e)
    | .ok s1 =>
      match pollLoop s1 T.pollResps 0 fuel with
      | none => none
      | some (pt, .error e) => some (eT0 :: eR :: pt, .error e)
      | some (pt, .ok _) =>
        let eT1 : TraceEntry := ⟨.takeControl, s1.key⟩
        match (s1.take_control (T.takeResps 1)).2 with
        | .error e => some (eT0 :: eR :: pt ++ [eT1], .error e)
        | .ok s2 =>
          some (eT0 :: eR :: pt ++ eT1 :: (finishPhase s2 T).1,
                (finishPhase s2 T).2)

/-! ## Basic facts about the embedded operations -/

/-- `true` when an operation returned normally (raised no Python
exception). -/
def okResult {α : Type} : Except PyError α → Bool
  | .ok _ => true
  | .error _ => false

/-- `true` when an operation raised the precondition `RuntimeError` of the
`has_control` guards. -/
def preconditionRaise {α : Type} : Except PyError α → Bool
  | .error (.runtimeError _) => true
  | _ => false

theorem raise_for_status_ok_iff {r : HttpResponse} :
    raise_for_status r = .ok () ↔ ¬ errorStatus r := by
  unfold raise_for_status
  split <;> simp_all

theorem raise_for_status_eq_error {r : HttpResponse} {e : PyError}
    (h : raise_for_status r = .error e) :
    e = .httpError r.statusCode ∧ errorStatus r := by
  unfold raise_for_status at h
  split at h <;> simp_all

theorem take_control_requests (s : FrankaDesk) (resp : HttpResponse) :
    (s.take_control resp).1 =
      [⟨"POST", s.url ++ "/api/system/control-token:take",
        [("owner", some s.name)], []⟩] := by
  unfold FrankaDesk.take_control
  split <;> rfl

theorem take_control_result (s : FrankaDesk) (resp : HttpResponse) :
    (s.take_control resp).2 =
      if errorStatus resp then .error (.httpError resp.statusCode)
      else .ok { s with key := jsonGet resp.json "token" } := by
  unfold FrankaDesk.take_control raise_for_status
  by_cases h : errorStatus resp <;> simp [h]

theorem unlock_joints_requests (s : FrankaDesk) (resp : HttpResponse) :
    (s.unlock_joints resp).1 =
      [⟨"POST", s.url ++ "/api/arm/joints:unlock", [],
        [("X-Control-Token", s.key)]⟩] := by
  unfold FrankaDesk.unlock_joints FrankaDesk.has_control_method_truthy
  rw [if_neg (by simp)]
  split
  · rfl
  · split <;> rfl

theorem unlock_joints_result (s : FrankaDesk) (resp : HttpResponse) :
    (s.unlock_joints resp).2 =
      if resp.statusCode = 200 ∨ resp.statusCode = 500 then .ok s
      else if errorStatus resp then .error (.httpError resp.statusCode)
      else .ok s := by
  unfold FrankaDesk.unlock_joints FrankaDesk.has_control_method_truthy
    raise_for_status
  rw [if_neg (by simp)]
  by_cases h2 : resp.statusCode = 200 ∨ resp.statusCode = 500 <;>
    by_cases h : errorStatus resp <;> simp [h, h2]

theorem lock_joints_requests (s : FrankaDesk) (resp : HttpResponse) :
    (s.lock_joints resp).1 =
      [⟨"POST", s.url ++ "/api/arm/joints:lock", [],
        [("X-Control-Token", s.key)]⟩] := by
  unfold FrankaDesk.lock_joints FrankaDesk.has_control_method_truthy
  rw [if_neg (by simp)]
  split <;> rfl

theorem lock_joints_result (s : FrankaDesk) (resp : HttpResponse) :
    (s.lock_joints resp).2 =
      if errorStatus resp then .error (.httpError resp.statusCode)
      else .ok s := by
  unfold FrankaDesk.lock_joints FrankaDesk.has_control_method_truthy
    raise_for_status
  rw [if_neg (by simp)]
  by_cases h : errorStatus resp <;> simp [h]

theorem set_mode_requests (s : FrankaDesk) (mode : String)
    (resp : HttpResponse) :
    (s.set_mode mode resp).1 =
      [⟨"POST", s.url ++ "/api/system/operating-mode:change",
        [("desiredOperatingMode", some mode)],
        [("X-Control-Token", s.key)]⟩] := by
  unfold FrankaDesk.set_mode FrankaDesk.has_control_method_truthy
  rw [if_neg (by simp)]
  split <;> rfl

theorem set_mode_result (s : FrankaDesk) (mode : String)
    (resp : HttpResponse) :
    (s.set_mode mode resp).2 =
      if errorStatus resp then .error (.httpError resp.statusCode)
      else .ok s := by
  unfold FrankaDesk.set_mode FrankaDesk.has_control_method_truthy
    raise_for_status
  rw [if_neg (by simp)]
  by_cases h : errorStatus resp <;> simp [h]

theorem deactivate_fci_result (s : FrankaDesk) (resp : HttpResponse) :
    (s.deactivate_fci resp).2 =
      if errorStatus resp then .error (.httpError resp.statusCode)
      else .ok s := by
  unfold FrankaDesk.deactivate_fci FrankaDesk.has_control_method_truthy
    raise_for_status
  rw [if_neg (by simp)]
  by_cases h : errorStatus resp <;> simp [h]

theorem deactivate_fci_requests (s : FrankaDesk) (resp : HttpResponse) :
    (s.deactivate_fci resp).1 =
      [⟨"POST", s.url ++ "/api/fci:deactivate", [],
        [("X-Control-Token", s.key)]⟩] := by
  unfold FrankaDesk.deactivate_fci FrankaDesk.has_control_method_truthy
  rw [if_neg (by simp)]
  split <;> rfl

theorem activate_fci_requests (s : FrankaDesk) (resp : HttpResponse) :
    (s.activate_fci resp).1 =
      [⟨"POST", s.url ++ "/api/fci:activate", [],
        [("X-Control-Token", s.key)]⟩] := by
  unfold FrankaDesk.activate_fci FrankaDesk.has_control_method_truthy
  rw [if_neg (by simp)]
  split
  · rfl
  · split <;> rfl

theorem activate_fci_result (s : FrankaDesk) (resp : HttpResponse) :
    (s.activate_fci resp).2 =
      if resp.statusCode = 200 ∨ resp.statusCode = 500 then .ok s
      else if errorStatus resp then .error (.httpError resp.statusCode)
      else .ok s := by
  unfold FrankaDesk.activate_fci FrankaDesk.has_control_method_truthy
    raise_for_status
  rw [if_neg (by simp)]
  by_cases h2 : resp.statusCode = 200 ∨ resp.statusCode = 500 <;>
    by_cases h : errorStatus resp <;> simp [h, h2]

theorem get_operating_mode_result (s : FrankaDesk) (resp : HttpResponse) :
    (s.get_operating_mode resp).2 =
      if errorStatus resp then .error (.httpError resp.statusCode)
      else .ok (jsonGet resp.json "status") := by
  unfold FrankaDesk.get_operating_mode raise_for_status
  by_cases h : errorStatus resp <;> simp [h]

theorem client_take_control_no_name {s : ClientDesk} (h : s.nameAttr = none)
    (resp : HttpResponse) :
    s.take_control resp = ([], .error (.attributeError "_name")) := by
  unfold ClientDesk.take_control
  rw [h]

theorem client_unlock_result (s : ClientDesk) (resp : HttpResponse) :
    (s.unlock_joints resp).2 =
      if errorStatus resp then .error (.httpError resp.statusCode)
      else .ok s := by
  unfold ClientDesk.unlock_joints ClientDesk.has_control_method_truthy
    raise_for_status
  rw [if_neg (by simp)]
  by_cases h : errorStatus resp <;> simp [h]

theorem client_lock_result (s : ClientDesk) (resp : HttpResponse) :
    (s.lock_joints resp).2 =
      if errorStatus resp then .error (.httpError resp.statusCode)
      else .ok s := by
  unfold ClientDesk.lock_joints ClientDesk.has_control_method_truthy
    raise_for_status
  rw [if_neg (by simp)]
  by_cases h : errorStatus resp <;> simp [h]

theorem client_set_mode_result (s : ClientDesk) (mode : String)
    (resp : HttpResponse) :
    (s.set_mode mode resp).2 =
      if errorStatus resp then .error (.httpError resp.statusCode)
      else .ok s := by
  unfold ClientDesk.set_mode ClientDesk.has_control_method_truthy
    raise_for_status
  rw [if_neg (by simp)]
  by_cases h : errorStatus resp <;> simp [h]

theorem client_set_mode_requests (s : ClientDesk) (mode : String)
    (resp : HttpResponse) :
    (s.set_mode mode resp).1 =
      [⟨"POST", s.url ++ "/api/mode", [("control-key", s.key)], []⟩] := by
  unfold ClientDesk.set_mode ClientDesk.has_control_method_truthy
  rw [if_neg (by simp)]
  split <;> rfl

theorem client_activate_result (s : ClientDesk) (resp : HttpResponse) :
    (s.activate_fci resp).2 =
      if errorStatus resp then .error (.httpError resp.statusCode)
      else .ok s := by
  unfold ClientDesk.activate_fci ClientDesk.has_control_method_truthy
    raise_for_status
  rw [if_neg (by simp)]
  by_cases h : errorStatus resp <;> simp [h]

theorem client_unlock_ok_state {s s' : ClientDesk} {resp : HttpResponse}
    (h : (s.unlock_joints resp).2 = .ok s') : s' = s := by
  rw [client_unlock_result] at h
  split at h
  · cases h
  · simp at h; exact h.symm

theorem client_lock_ok_state {s s' : ClientDesk} {resp : HttpResponse}
    (h : (s.lock_joints resp).2 = .ok s') : s' = s := by
  rw [client_lock_result] at h
  split at h
  · cases h
  · simp at h; exact h.symm

theorem client_set_mode_ok_state {s s' : ClientDesk} {mode : String}
    {resp : HttpResponse} (h : (s.set_mode mode resp).2 = .ok s') :
    s' = s := by
  rw [client_set_mode_result] at h
  split at h
  · cases h
  · simp at h; exact h.symm

theorem client_activate_ok_state {s s' : ClientDesk} {resp : HttpResponse}
    (h : (s.activate_fci resp).2 = .ok s') : s' = s := by
  rw [client_activate_result] at h
  split at h
  · cases h
  · simp at h; exact h.symm

/-- Every state of the older client reachable through its interface still
has the `_name` attribute absent and the `_key` attribute `None`. -/
theorem clientReach_invariant {s : ClientDesk} (h : ClientReach s) :
    s.nameAttr = none ∧ s.key = none := by
  induction h with
  | start robot_ip user password name => exact ⟨rfl, rfl⟩
  | stepTake a b resp hr hok ih =>
    rw [client_take_control_no_name ih.1] at hok
    cases hok
  | stepUnlock a b resp hr hok ih =>
    rw [client_unlock_ok_state hok]; exact ih
  | stepLock a b resp hr hok ih =>
    rw [client_lock_ok_state hok]; exact ih
  | stepSetMode a b mode resp hr hok ih =>
    rw [client_set_mode_ok_state hok]; exact ih
  | stepActivate a b resp hr hok ih =>
    rw [client_activate_ok_state hok]; exact ih

/-- **C10** — In the client version at
`franka_desk_api_client/franka_desk.py`, `take_control` raises an
`AttributeError` before any network request is issued, for every session
reachable through that class and every transport behaviour, because
`__init__` never stores the owner-name parameter on the instance;
consequently the session's token stays absent (`has_control` is `false`)
and control can never be acquired through that version. -/
theorem C10_client_take_control_attribute_error {s : ClientDesk}
    (h : ClientReach s) :
    s.nameAttr = none ∧ s.key = none ∧ s.has_control = false ∧
    ∀ resp : HttpResponse,
      s.take_control resp = ([], .error (.attributeError "_name")) := by
  obtain ⟨h1, h2⟩ := clientReach_invariant h
  refine ⟨h1, h2, ?_, fun resp => client_take_control_no_name h1 resp⟩
  rw [ClientDesk.has_control, h2]
  rfl

/-- Witness for `C10_client_take_control_attribute_error` at a freshly
constructed instance. -/
theorem C10_client_take_control_attribute_error_witness :
    ClientReach (ClientDesk.init "172.16.0.2" "admin" "pw" "owner1") ∧
    ((ClientDesk.init "172.16.0.2" "admin" "pw" "owner1").nameAttr = none ∧
     (ClientDesk.init "172.16.0.2" "admin" "pw" "owner1").key = none ∧
     (ClientDesk.init "172.16.0.2" "admin" "pw" "owner1").has_control = false ∧
     ∀ resp : HttpResponse,
       (ClientDesk.init "172.16.0.2" "admin" "pw" "owner1").take_control resp
         = ([], .error (.attributeError "_name"))) :=
  ⟨ClientReach.start "172.16.0.2" "admin" "pw" "owner1",
   C10_client_take_control_attribute_error
     (ClientReach.start "172.16.0.2" "admin" "pw" "owner1")⟩

/-! ## Claims about the `FrankaDesk` operations -/

/-- **C1** — The claim says every control-gated operation
(`unlock_joints`, `lock_joints`, `set_mode`, `activate_fci`,
`deactivate_fci`) of a token-less session raises `RuntimeError` before any
network call.  The code does the opposite: the guards read
`if not self.has_control:` without calling the method, a bound method is
always truthy, so for a session with `key = None` every gated operation
issues its HTTP request (non-empty request list) and never raises the
precondition `RuntimeError`. -/
theorem C1_gated_ops_never_raise_precondition (s : FrankaDesk)
    (_h : s.key = none) (mode : String) (resp : HttpResponse) :
    ((s.unlock_joints resp).1 ≠ [] ∧
      preconditionRaise (s.unlock_joints resp).2 = false) ∧
    ((s.lock_joints resp).1 ≠ [] ∧
      preconditionRaise (s.lock_joints resp).2 = false) ∧
    ((s.set_mode mode resp).1 ≠ [] ∧
      preconditionRaise (s.set_mode mode resp).2 = false) ∧
    ((s.activate_fci resp).1 ≠ [] ∧
      preconditionRaise (s.activate_fci resp).2 = false) ∧
    ((s.deactivate_fci resp).1 ≠ [] ∧
      preconditionRaise (s.deactivate_fci resp).2 = false) := by
  refine ⟨⟨?_, ?_⟩, ⟨?_, ?_⟩, ⟨?_, ?_⟩, ⟨?_, ?_⟩, ⟨?_, ?_⟩⟩
  · rw [unlock_joints_requests]; simp
  · rw [unlock_joints_result]
    split
    · simp [preconditionRaise]
    · split <;> simp [preconditionRaise]
  · rw [lock_joints_requests]; simp
  · rw [lock_joints_result]
    split <;> simp [preconditionRaise]
  · rw [set_mode_requests]; simp
  · rw [set_mode_result]
    split <;> simp [preconditionRaise]
  · rw [activate_fci_requests]; simp
  · rw [activate_fci_result]
    split
    · simp [preconditionRaise]
    · split <;> simp [preconditionRaise]
  · rw [deactivate_fci_requests]; simp
  · rw [deactivate_fci_result]
    split <;> simp [preconditionRaise]

/-- Witness for `C1_gated_ops_never_raise_precondition` at a freshly
constructed (token-less) session and a `403` response. -/
theorem C1_gated_ops_never_raise_precondition_witness :
    (FrankaDesk.init "172.16.0.2" "admin" "pw" "cl").key = none ∧
    ((((FrankaDesk.init "172.16.0.2" "admin" "pw" "cl").unlock_joints
          ⟨403, []⟩).1 ≠ [] ∧
      preconditionRaise
        (((FrankaDesk.init "172.16.0.2" "admin" "pw" "cl").unlock_joints
          ⟨403, []⟩).2) = false) ∧
     ((((FrankaDesk.init "172.16.0.2" "admin" "pw" "cl").lock_joints
          ⟨403, []⟩).1 ≠ []) ∧
      preconditionRaise
        (((FrankaDesk.init "172.16.0.2" "admin" "pw" "cl").lock_joints
          ⟨403, []⟩).2) = false) ∧
     ((((FrankaDesk.init "172.16.0.2" "admin" "pw" "cl").set_mode "Execution"
          ⟨403, []⟩).1 ≠ []) ∧
      preconditionRaise
        (((FrankaDesk.init "172.16.0.2" "admin" "pw" "cl").set_mode
          "Execution" ⟨403, []⟩).2) = false) ∧
     ((((FrankaDesk.init "172.16.0.2" "admin" "pw" "cl").activate_fci
          ⟨403, []⟩).1 ≠ []) ∧
      preconditionRaise
        (((FrankaDesk.init "172.16.0.2" "admin" "pw" "cl").activate_fci
          ⟨403, []⟩).2) = false) ∧
     ((((FrankaDesk.init "172.16.0.2" "admin" "pw" "cl").deactivate_fci
          ⟨403, []⟩).1 ≠ []) ∧
      preconditionRaise
        (((FrankaDesk.init "172.16.0.2" "admin" "pw" "cl").deactivate_fci
          ⟨403, []⟩).2) = false)) :=
  ⟨rfl, C1_gated_ops_never_raise_precondition
    (FrankaDesk.init "172.16.0.2" "admin" "pw" "cl") rfl "Execution"
    ⟨403, []⟩⟩

/-- **C4** — For a session holding a token, `unlock_joints` and
`activate_fci` return without error exactly when the response status is a
success status (outside the 4xx/5xx error classes, the set
`raise_for_status` accepts) or the one tolerated status `500`;
`lock_joints` and `deactivate_fci` return without error exactly when the
status is a success status, tolerating nothing else. -/
theorem C4_tolerated_status_behaviour (s : FrankaDesk)
    (_h : s.has_control = true) (resp : HttpResponse) :
    (okResult (s.unlock_joints resp).2 = true ↔
      (¬ errorStatus resp ∨ resp.statusCode = 500)) ∧
    (okResult (s.activate_fci resp).2 = true ↔
      (¬ errorStatus resp ∨ resp.statusCode = 500)) ∧
    (okResult (s.lock_joints resp).2 = true ↔ ¬ errorStatus resp) ∧
    (okResult (s.deactivate_fci resp).2 = true ↔ ¬ errorStatus resp) := by
  refine ⟨?_, ?_, ?_, ?_⟩
  · rw [unlock_joints_result]
    split
    · next h2 =>
      simp only [okResult, true_iff]
      rcases h2 with h2 | h2
      · exact Or.inl (by simp [errorStatus, h2])
      · exact Or.inr h2
    · next h2 =>
      split
      · next h3 =>
        simp only [okResult, Bool.false_eq_true, false_iff]
        intro hc
        rcases hc with hc | hc
        · exact hc h3
        · exact h2 (Or.inr hc)
      · next h3 =>
        simp only [okResult, true_iff]
        exact Or.inl h3
  · rw [activate_fci_result]
    split
    · next h2 =>
      simp only [okResult, true_iff]
      rcases h2 with h2 | h2
      · exact Or.inl (by simp [errorStatus, h2])
      · exact Or.inr h2
    · next h2 =>
      split
      · next h3 =>
        simp only [okResult, Bool.false_eq_true, false_iff]
        intro hc
        rcases hc with hc | hc
        · exact hc h3
        · exact h2 (Or.inr hc)
      · next h3 =>
        simp only [okResult, true_iff]
        exact Or.inl h3
  · rw [lock_joints_result]
    split
    · next h3 => simp only [okResult, Bool.false_eq_true, false_iff, not_not]; exact h3
    · next h3 => simp only [okResult, true_iff]; exact h3
  · rw [deactivate_fci_result]
    split
    · next h3 => simp only [okResult, Bool.false_eq_true, false_iff, not_not]; exact h3
    · next h3 => simp only [okResult, true_iff]; exact h3

/-- Witness for `C4_tolerated_status_behaviour` at a session holding token
`"tok"` and the tolerated status `500`. -/
theorem C4_tolerated_status_behaviour_witness :
    FrankaDesk.has_control
      ⟨"172.16.0.2", "admin", "pw", "cl", some "tok"⟩ = true ∧
    ((okResult ((FrankaDesk.unlock_joints
        ⟨"172.16.0.2", "admin", "pw", "cl", some "tok"⟩ ⟨500, []⟩).2) = true ↔
      (¬ errorStatus ⟨500, []⟩ ∨ HttpResponse.statusCode ⟨500, []⟩ = 500)) ∧
     (okResult ((FrankaDesk.activate_fci
        ⟨"172.16.0.2", "admin", "pw", "cl", some "tok"⟩ ⟨500, []⟩).2) = true ↔
      (¬ errorStatus ⟨500, []⟩ ∨ HttpResponse.statusCode ⟨500, []⟩ = 500)) ∧
     (okResult ((FrankaDesk.lock_joints
        ⟨"172.16.0.2", "admin", "pw", "cl", some "tok"⟩ ⟨500, []⟩).2) = true ↔
      ¬ errorStatus ⟨500, []⟩) ∧
     (okResult ((FrankaDesk.deactivate_fci
        ⟨"172.16.0.2", "admin", "pw", "cl", some "tok"⟩ ⟨500, []⟩).2) = true ↔
      ¬ errorStatus ⟨500, []⟩)) :=
  ⟨rfl, C4_tolerated_status_behaviour
    ⟨"172.16.0.2", "admin", "pw", "cl", some "tok"⟩ rfl ⟨500, []⟩⟩

/-- **C8** — `reboot` requires no control token: for *every* session state
(with or without a token) and every response, it issues its POST request,
returns without raising, and returns the session state itself — every
field, the stored token included, unchanged. -/
theorem C8_reboot_unconditional_and_pure (s : FrankaDesk)
    (resp : HttpResponse) :
    s.reboot resp =
      ([⟨"POST", s.url ++ "/api/system:reboot", [], []⟩], .ok s) := rfl

/-- **C3** (counterexample) — The claim says that after *every* response
`take_control` accepts as success, `has_control()` returns true.  The code
accepts any response whose status `raise_for_status` tolerates, regardless
of the body: on a `200` response with an empty JSON body the call returns
normally, stores `response.json().get("token") = None`, and `has_control()`
is `false` afterwards. -/
theorem C3_counterexample_empty_success_body :
    raise_for_status ⟨200, []⟩ = .ok () ∧
    (FrankaDesk.take_control (FrankaDesk.init "172.16.0.2" "admin" "pw" "cl")
        ⟨200, []⟩).2 =
      .ok (FrankaDesk.init "172.16.0.2" "admin" "pw" "cl") ∧
    FrankaDesk.has_control (FrankaDesk.init "172.16.0.2" "admin" "pw" "cl")
      = false :=
  ⟨rfl, rfl, rfl⟩

/-- **C3** (amended) — After every response `take_control` accepts as
success (any status outside 4xx/5xx), the stored token equals
`response.json().get("token")` — the token value in the response body,
`None` when absent or null — and `has_control()` returns true exactly when
that value is a non-null token. -/
theorem C3_take_control_stores_body_token (s : FrankaDesk)
    (resp : HttpResponse) (h : ¬ errorStatus resp) :
    ∃ s', (s.take_control resp).2 = .ok s' ∧
      s'.key = jsonGet resp.json "token" ∧
      (s'.has_control = true ↔ (jsonGet resp.json "token").isSome = true) := by
  rw [take_control_result, if_neg h]
  exact ⟨_, rfl, rfl, Iff.rfl⟩

/-- Witness for `C3_take_control_stores_body_token` at a `200` response
whose body carries `token = "abc"`. -/
theorem C3_take_control_stores_body_token_witness :
    ¬ errorStatus ⟨200, [("token", some "abc")]⟩ ∧
    ∃ s', (FrankaDesk.take_control
        (FrankaDesk.init "172.16.0.2" "admin" "pw" "cl")
        ⟨200, [("token", some "abc")]⟩).2 = .ok s' ∧
      s'.key = jsonGet [("token", some "abc")] "token" ∧
      (s'.has_control = true ↔
        (jsonGet [("token", some "abc")] "token").isSome = true) :=
  ⟨by decide, C3_take_control_stores_body_token
    (FrankaDesk.init "172.16.0.2" "admin" "pw" "cl")
    ⟨200, [("token", some "abc")]⟩ (by decide)⟩

/-- **C7** — In `src/franka_desk.py`, `set_mode mode` issues exactly one
request, to the operating-mode endpoint, whose body is
`{"desiredOperatingMode": mode}`, and it returns without error exactly when
the status is outside the 4xx/5xx error classes (any failure status is a
hard error).  The copy in `franka_desk_api_client/franka_desk.py` violates
this: its `set_mode` ignores the `mode` argument and posts
`{"control-key": _key}` to `/api/mode`, so the issued request carries no
`desiredOperatingMode` field at all. -/
theorem C7_set_mode_request_carries_mode (s : FrankaDesk) (mode : String)
    (resp : HttpResponse) :
    ((s.set_mode mode resp).1 =
      [⟨"POST", s.url ++ "/api/system/operating-mode:change",
        [("desiredOperatingMode", some mode)],
        [("X-Control-Token", s.key)]⟩]) ∧
    (okResult (s.set_mode mode resp).2 = true ↔ ¬ errorStatus resp) ∧
    (ClientDesk.set_mode ⟨"172.16.0.2", "admin", "pw", none, none⟩
        "Execution" ⟨200, []⟩ =
      ([⟨"POST", "https://172.16.0.2/api/mode", [("control-key", none)], []⟩],
       .ok ⟨"172.16.0.2", "admin", "pw", none, none⟩)) ∧
    ([("control-key", (none : Option String))].lookup "desiredOperatingMode"
      = none) := by
  refine ⟨set_mode_requests s mode resp, ?_, rfl, rfl⟩
  rw [set_mode_result]
  split
  · next h3 =>
    simp only [okResult, Bool.false_eq_true, false_iff, not_not]
    exact h3
  · next h3 =>
    simp only [okResult, true_iff]
    exact h3

/-! ## Facts about the bootstrap sequence -/

theorem pollLoop_zero (s : FrankaDesk) (polls : Nat → HttpResponse)
    (i : Nat) : pollLoop s polls i 0 = none := rfl

theorem pollLoop_succ (s : FrankaDesk) (polls : Nat → HttpResponse)
    (i fuel : Nat) :
    pollLoop s polls i (fuel + 1) =
      match (s.get_operating_mode (polls i)).2 with
      | .error e => some ([⟨CallName.getOperatingMode, s.key⟩], .error e)
      | .ok reading =>
        if reading = some "Execution" then
          some ([⟨CallName.getOperatingMode, s.key⟩], .ok ())
        else
          match pollLoop s polls (i + 1) fuel with
          | none => none
          | some (t, res) =>
            some (⟨CallName.getOperatingMode, s.key⟩ :: t, res) := rfl

/-- The poll loop stops at the first reading `"Execution"`: when the polls
up to index `i + n` all return non-error statuses, the readings before
`i + n` differ from `"Execution"` and the one at `i + n` equals it, the
loop (started at `i`, with any fuel above `n`) performs exactly `n + 1`
polls and returns normally. -/
theorem pollLoop_stops_at_first (s : FrankaDesk)
    (polls : Nat → HttpResponse) :
    ∀ (n i fuel : Nat), n < fuel →
    (∀ j, j ≤ n → ¬ errorStatus (polls (i + j))) →
    (∀ j, j < n → jsonGet (polls (i + j)).json "status" ≠ some "Execution") →
    jsonGet (polls (i + n)).json "status" = some "Execution" →
    pollLoop s polls i fuel =
      some (List.replicate (n + 1) ⟨CallName.getOperatingMode, s.key⟩,
            .ok ()) := by
  intro n
  induction n with
  | zero =>
    intro i fuel hfuel hok _hbefore hat
    obtain ⟨f, rfl⟩ : ∃ f, fuel = f + 1 := ⟨fuel - 1, by omega⟩
    have hok0 : ¬ errorStatus (polls i) := by simpa using hok 0 le_rfl
    have hat0 : jsonGet (polls i).json "status" = some "Execution" := by
      simpa using hat
    rw [pollLoop_succ, get_operating_mode_result, if_neg hok0]
    simp [hat0]
  | succ n ih =>
    intro i fuel hfuel hok hbefore hat
    obtain ⟨f, rfl⟩ : ∃ f, fuel = f + 1 := ⟨fuel - 1, by omega⟩
    have hok0 : ¬ errorStatus (polls i) := by simpa using hok 0 (by omega)
    have hb0 : jsonGet (polls i).json "status" ≠ some "Execution" := by
      simpa using hbefore 0 (by omega)
    have hrec := ih (i + 1) f (by omega)
      (fun j hj => by
        have := hok (j + 1) (by omega)
        rwa [show i + (j + 1) = i + 1 + j by omega] at this)
      (fun j hj => by
        have := hbefore (j + 1) (by omega)
        rwa [show i + (j + 1) = i + 1 + j by omega] at this)
      (by
        have := hat
        rwa [show i + (n + 1) = i + 1 + n by omega] at this)
    rw [pollLoop_succ, get_operating_mode_result, if_neg hok0]
    simp [hb0, hrec, List.replicate_succ]

/-- When no poll ever reads `"Execution"` (and none errors), the loop never
terminates: it returns `none` for every amount of fuel, from every start
index — the source bounds it by nothing. -/
theorem pollLoop_never_terminates (s : FrankaDesk)
    (polls : Nat → HttpResponse)
    (hok : ∀ i, ¬ errorStatus (polls i))
    (hne : ∀ i, jsonGet (polls i).json "status" ≠ some "Execution") :
    ∀ fuel i, pollLoop s polls i fuel = none := by
  intro fuel
  induction fuel with
  | zero => intro i; rfl
  | succ f ih =>
    intro i
    rw [pollLoop_succ, get_operating_mode_result, if_neg (hok i)]
    simp [hne i, ih (i + 1)]

/-- Every entry the poll loop records is a `get_operating_mode` call made
with the session's key unchanged. -/
theorem pollLoop_entry_shape (s : FrankaDesk) (polls : Nat → HttpResponse) :
    ∀ fuel i pt res, pollLoop s polls i fuel = some (pt, res) →
      ∀ e ∈ pt, e = ⟨CallName.getOperatingMode, s.key⟩ := by
  intro fuel
  induction fuel with
  | zero => intro i pt res h; cases h
  | succ f ih =>
    intro i pt res h
    rw [pollLoop_succ] at h
    split at h
    · simp only [Option.some.injEq, Prod.mk.injEq] at h
      rw [← h.1]
      intro e he
      simpa using he
    · split at h
      · simp only [Option.some.injEq, Prod.mk.injEq] at h
        rw [← h.1]
        intro e he
        simpa using he
      · split at h
        · cases h
        · rename_i t res2 hp
          simp only [Option.some.injEq, Prod.mk.injEq] at h
          rw [← h.1]
          intro e he
          rcases List.mem_cons.mp he with he | he
          · exact he
          · exact ih (i + 1) t res2 hp e he

theorem unlock_joints_ok_state {s s' : FrankaDesk} {resp : HttpResponse}
    (h : (s.unlock_joints resp).2 = .ok s') : s' = s := by
  rw [unlock_joints_result] at h
  split at h
  · injection h with h; exact h.symm
  · split at h
    · cases h
    · injection h with h; exact h.symm

theorem activate_fci_ok_state {s s' : FrankaDesk} {resp : HttpResponse}
    (h : (s.activate_fci resp).2 = .ok s') : s' = s := by
  rw [activate_fci_result] at h
  split at h
  · injection h with h; exact h.symm
  · split at h
    · cases h
    · injection h with h; exact h.symm

theorem take_control_ok_inv {s s' : FrankaDesk} {resp : HttpResponse}
    (h : (s.take_control resp).2 = .ok s') :
    ¬ errorStatus resp ∧ s' = { s with key := jsonGet resp.json "token" } := by
  rw [take_control_result] at h
  split at h
  · cases h
  · next hn => injection h with h; exact ⟨hn, h.symm⟩

/-- The finishing phase records an `unlock_joints` call first and then,
when unlocking raised nothing, an `activate_fci` call — both with the key
the session entered the phase with. -/
theorem finishPhase_trace_shape (s : FrankaDesk) (T : Transport) :
    (finishPhase s T).1 = [⟨CallName.unlockJoints, s.key⟩] ∨
    (finishPhase s T).1 =
      [⟨CallName.unlockJoints, s.key⟩, ⟨CallName.activateFci, s.key⟩] := by
  unfold finishPhase
  cases hu : (s.unlock_joints T.unlockResp).2 with
  | error e => simp [hu]
  | ok s1 =>
    have hs1 : s1 = s := unlock_joints_ok_state hu
    subst hs1
    cases ha : (s1.activate_fci T.activateResp).2 with
    | error e => simp [hu, ha]
    | ok s2 => simp [hu, ha]

/-- Computation of `enable_robot` on the recovery path: the first
`take_control` response has an error status and the polls first read
`"Execution"` at index `n` (all polls up to `n` succeeding).  The run is
`take_control, reboot, n + 1 polls, take_control`, then — depending on the
second `take_control` response — either the propagated acquisition error or
the finishing phase of the session now holding the returned token. -/
theorem enable_robot_recovery_run (robot_ip user password : String)
    (T : Transport) (n fuel : Nat)
    (hfail : errorStatus (T.takeResps 0))
    (hfuel : n < fuel)
    (hok : ∀ j, j ≤ n → ¬ errorStatus (T.pollResps j))
    (hbefore : ∀ j, j < n →
      jsonGet (T.pollResps j).json "status" ≠ some "Execution")
    (hat : jsonGet (T.pollResps n).json "status" = some "Execution") :
    enable_robot robot_ip user password T fuel =
      if errorStatus (T.takeResps 1) then
        some (⟨CallName.takeControl, none⟩ :: ⟨CallName.reboot, none⟩ ::
                List.replicate (n + 1) ⟨CallName.getOperatingMode, none⟩ ++
                [⟨CallName.takeControl, none⟩],
              .error (.httpError (T.takeResps 1).statusCode))
      else
        some (⟨CallName.takeControl, none⟩ :: ⟨CallName.reboot, none⟩ ::
                List.replicate (n + 1) ⟨CallName.getOperatingMode, none⟩ ++
                ⟨CallName.takeControl, none⟩ ::
                (finishPhase { FrankaDesk.init robot_ip user password
                    "franka_desk_client" with
                  key := jsonGet (T.takeResps 1).json "token" } T).1,
              (finishPhase { FrankaDesk.init robot_ip user password
                  "franka_desk_client" with
                key := jsonGet (T.takeResps 1).json "token" } T).2) := by
  have h1 : ((FrankaDesk.init robot_ip user password
      "franka_desk_client").take_control (T.takeResps 0)).2 =
      .error (.httpError (T.takeResps 0).statusCode) := by
    rw [take_control_result, if_pos hfail]
  have hpoll : pollLoop (FrankaDesk.init robot_ip user password
      "franka_desk_client") T.pollResps 0 fuel =
      some (List.replicate (n + 1) ⟨CallName.getOperatingMode, none⟩,
            .ok ()) :=
    pollLoop_stops_at_first _ T.pollResps n 0 fuel hfuel
      (fun j hj => by simpa using hok j hj)
      (fun j hj => by simpa using hbefore j hj)
      (by simpa using hat)
  have h2 := take_control_result (FrankaDesk.init robot_ip user password
      "franka_desk_client") (T.takeResps 1)
  have hkey : (FrankaDesk.init robot_ip user password
      "franka_desk_client").key = none := rfl
  by_cases hs : errorStatus (T.takeResps 1)
  · rw [if_pos hs] at h2
    simp only [enable_robot, h1, FrankaDesk.reboot, hkey, hpoll, h2,
      if_pos hs]
  · rw [if_neg hs] at h2
    simp only [enable_robot, h1, FrankaDesk.reboot, hkey, hpoll, h2,
      if_neg hs]

/-- **C2** — Under any transport whose first `take_control` response has an
error status, whose polls (all non-error) first read `"Execution"` at some
index `n`, and whose second `take_control` response is accepted, the
bootstrap's trace is exactly `take_control`, `reboot`, `n + 1 ≥ 1`
`get_operating_mode` polls, `take_control`, `unlock_joints` (then possibly
`activate_fci`): one `reboot`, at least one poll and exactly two
`take_control` calls, in that order, before `unlock_joints`. -/
theorem C2_recovery_call_order (robot_ip user password : String)
    (T : Transport) (n fuel : Nat)
    (hfail : errorStatus (T.takeResps 0))
    (hfuel : n < fuel)
    (hok : ∀ j, j ≤ n → ¬ errorStatus (T.pollResps j))
    (hbefore : ∀ j, j < n →
      jsonGet (T.pollResps j).json "status" ≠ some "Execution")
    (hat : jsonGet (T.pollResps n).json "status" = some "Execution")
    (hsucc : ¬ errorStatus (T.takeResps 1)) :
    ∃ tr res, enable_robot robot_ip user password T fuel = some (tr, res) ∧
      ∃ rest, (rest = [] ∨ rest = [CallName.activateFci]) ∧
        tr.map TraceEntry.call =
          CallName.takeControl :: CallName.reboot ::
            List.replicate (n + 1) CallName.getOperatingMode ++
            CallName.takeControl :: CallName.unlockJoints :: rest ∧
        (tr.map TraceEntry.call).count CallName.reboot = 1 ∧
        (tr.map TraceEntry.call).count CallName.takeControl = 2 ∧
        1 ≤ (tr.map TraceEntry.call).count CallName.getOperatingMode := by
  have hrun := enable_robot_recovery_run robot_ip user password T n fuel
    hfail hfuel hok hbefore hat
  rw [if_neg hsucc] at hrun
  rcases finishPhase_trace_shape { FrankaDesk.init robot_ip user password
      "franka_desk_client" with
    key := jsonGet (T.takeResps 1).json "token" } T with hf | hf
  · refine ⟨_, _, hrun, [], Or.inl rfl, ?_, ?_, ?_, ?_⟩ <;>
      simp [hf, List.count_cons, List.count_append, List.count_replicate]
  · refine ⟨_, _, hrun, [CallName.activateFci], Or.inr rfl, ?_, ?_, ?_, ?_⟩ <;>
      simp [hf, List.count_cons, List.count_append, List.count_replicate]

/-- **C6** — Under any transport whose first `take_control` fails, whose
polls recover to `"Execution"`, and whose retried `take_control` fails
again, the bootstrap terminates with that second acquisition error, makes
exactly two `take_control` attempts (no third), and never invokes
`unlock_joints`. -/
theorem C6_double_acquisition_failure (robot_ip user password : String)
    (T : Transport) (n fuel : Nat)
    (hfail : errorStatus (T.takeResps 0))
    (hfuel : n < fuel)
    (hok : ∀ j, j ≤ n → ¬ errorStatus (T.pollResps j))
    (hbefore : ∀ j, j < n →
      jsonGet (T.pollResps j).json "status" ≠ some "Execution")
    (hat : jsonGet (T.pollResps n).json "status" = some "Execution")
    (hfail2 : errorStatus (T.takeResps 1)) :
    ∃ tr, enable_robot robot_ip user password T fuel =
        some (tr, .error (.httpError (T.takeResps 1).statusCode)) ∧
      tr.map TraceEntry.call =
        CallName.takeControl :: CallName.reboot ::
          List.replicate (n + 1) CallName.getOperatingMode ++
          [CallName.takeControl] ∧
      (tr.map TraceEntry.call).count CallName.takeControl = 2 ∧
      CallName.unlockJoints ∉ tr.map TraceEntry.call := by
  have hrun := enable_robot_recovery_run robot_ip user password T n fuel
    hfail hfuel hok hbefore hat
  rw [if_pos hfail2] at hrun
  refine ⟨_, hrun, ?_, ?_, ?_⟩ <;>
    simp [List.count_cons, List.count_append, List.count_replicate,
      List.mem_append, List.mem_replicate]

/-- **C9** — The poll loop of the recovery path, over any run of non-error
`get_operating_mode` responses: (1) when the readings first equal
`"Execution"` at index `n`, the loop returns normally after exactly `n + 1`
polls for *every* fuel above `n` — no retry count or deadline of the code
bounds it; (2) when no reading ever equals `"Execution"`, the loop never
terminates (it exhausts every amount of fuel).  Together: the loop
terminates iff some reading equals `"Execution"`, and it stops at the first
such reading. -/
theorem C9_poll_until_execution (s : FrankaDesk)
    (polls : Nat → HttpResponse)
    (hok : ∀ i, ¬ errorStatus (polls i)) :
    (∀ n fuel, n < fuel →
      (∀ j, j < n → jsonGet (polls j).json "status" ≠ some "Execution") →
      jsonGet (polls n).json "status" = some "Execution" →
      pollLoop s polls 0 fuel =
        some (List.replicate (n + 1) ⟨CallName.getOperatingMode, s.key⟩,
              .ok ())) ∧
    ((∀ i, jsonGet (polls i).json "status" ≠ some "Execution") →
      ∀ fuel, pollLoop s polls 0 fuel = none) := by
  constructor
  · intro n fuel hfuel hbefore hat
    exact pollLoop_stops_at_first s polls n 0 fuel hfuel
      (fun j _ => by simpa using hok j)
      (fun j hj => by simpa using hbefore j hj)
      (by simpa using hat)
  · intro hne fuel
    exact pollLoop_never_terminates s polls hok hne fuel 0

/-- A response stream whose every element reports operating mode
`"Execution"` with status `200`. -/
def execPolls : Nat → HttpResponse :=
  fun _ => ⟨200, [("status", some "Execution")]⟩

/-- Witness for `C9_poll_until_execution` on the all-`"Execution"` poll
stream. -/
theorem C9_poll_until_execution_witness :
    (∀ i, ¬ errorStatus (execPolls i)) ∧
    ((∀ n fuel, n < fuel →
      (∀ j, j < n →
        jsonGet (execPolls j).json "status" ≠ some "Execution") →
      jsonGet (execPolls n).json "status" = some "Execution" →
      pollLoop (FrankaDesk.init "172.16.0.2" "admin" "pw" "cl") execPolls 0
          fuel =
        some (List.replicate (n + 1)
                ⟨CallName.getOperatingMode,
                 (FrankaDesk.init "172.16.0.2" "admin" "pw" "cl").key⟩,
              .ok ())) ∧
    ((∀ i, jsonGet (execPolls i).json "status" ≠ some "Execution") →
      ∀ fuel,
        pollLoop (FrankaDesk.init "172.16.0.2" "admin" "pw" "cl") execPolls
          0 fuel = none)) :=
  ⟨fun i => by simp [execPolls, errorStatus],
   C9_poll_until_execution (FrankaDesk.init "172.16.0.2" "admin" "pw" "cl")
     execPolls (fun i => by simp [execPolls, errorStatus])⟩

/-- The key every entry of a finishing-phase trace was recorded with is
the key the phase was entered with. -/
theorem finish_entry_key {s : FrankaDesk} {T : Transport} {e : TraceEntry}
    (he : e ∈ (finishPhase s T).1) : e.keyAtCall = s.key := by
  rcases finishPhase_trace_shape s T with hf | hf <;> rw [hf] at he <;>
    simp at he
  · rw [he]
  · rcases he with rfl | rfl <;> rfl

/-- Transport on which `take_control` is accepted with an *empty* response
body (so no token is stored) and every later call returns plain `200`. -/
def tokenlessTransport : Transport where
  takeResps := fun _ => ⟨200, []⟩
  rebootResp := ⟨200, []⟩
  pollResps := fun _ => ⟨200, [("status", some "Execution")]⟩
  unlockResp := ⟨200, []⟩
  activateResp := ⟨200, []⟩

/-- **C5** (counterexample) — The claim says no execution of the bootstrap
calls `unlock_joints` or `activate_fci` before a token is held, under *any*
transport behaviour.  Under a transport whose `take_control` response is a
`200` with an empty body, the acquisition is accepted but stores no token,
and the bootstrap then calls `unlock_joints` and `activate_fci` with the
session's key still `None`. -/
theorem C5_counterexample_unlock_without_token :
    enable_robot "172.16.0.2" "admin" "pw" tokenlessTransport 1 =
      some ([⟨CallName.takeControl, none⟩, ⟨CallName.unlockJoints, none⟩,
             ⟨CallName.activateFci, none⟩],
            .ok (FrankaDesk.init "172.16.0.2" "admin" "pw"
                   "franka_desk_client")) ∧
    TraceEntry.mk CallName.unlockJoints none ∈
      [⟨CallName.takeControl, none⟩, ⟨CallName.unlockJoints, none⟩,
       ⟨CallName.activateFci, none⟩] :=
  ⟨rfl, by decide⟩

/-- **C5** (amended) — Provided every `take_control` response the code
accepts carries a non-null `token` in its body, no execution of the
bootstrap calls `unlock_joints` or `activate_fci` before a token is held:
every such trace entry was recorded with the session's key present. -/
theorem C5_no_unlock_before_token (robot_ip user password : String)
    (T : Transport) (fuel : Nat)
    (htok : ∀ k, ¬ errorStatus (T.takeResps k) →
      (jsonGet (T.takeResps k).json "token").isSome = true) :
    ∀ tr res, enable_robot robot_ip user password T fuel = some (tr, res) →
      ∀ e ∈ tr, (e.call = CallName.unlockJoints ∨
                 e.call = CallName.activateFci) →
        e.keyAtCall.isSome = true := by
  intro tr res hrun e he hcall
  simp only [enable_robot] at hrun
  split at hrun
  · rename_i s1 h0
    obtain ⟨hno, hs1⟩ := take_control_ok_inv h0
    have hks : s1.key.isSome = true := by rw [hs1]; exact htok 0 hno
    simp only [Option.some.injEq, Prod.mk.injEq] at hrun
    rw [← hrun.1] at he
    rcases List.mem_cons.mp he with rfl | he2
    · simp at hcall
    · rw [finish_entry_key he2]; exact hks
  · rename_i h0
    simp only [FrankaDesk.reboot] at hrun
    split at hrun
    · cases hrun
    · rename_i pt e' hp
      simp only [Option.some.injEq, Prod.mk.injEq] at hrun
      rw [← hrun.1] at he
      rcases List.mem_cons.mp he with rfl | he2
      · simp at hcall
      rcases List.mem_cons.mp he2 with rfl | he3
      · simp at hcall
      have := pollLoop_entry_shape _ T.pollResps fuel 0 pt (.error e') hp
        e he3
      rw [this] at hcall
      simp at hcall
    · rename_i pt u hp
      split at hrun
      · rename_i e2 h1
        simp only [Option.some.injEq, Prod.mk.injEq] at hrun
        rw [← hrun.1] at he
        rcases List.mem_cons.mp he with rfl | he2
        · simp at hcall
        rcases List.mem_cons.mp he2 with rfl | he3
        · simp at hcall
        rcases List.mem_append.mp he3 with he4 | he4
        · have := pollLoop_entry_shape _ T.pollResps fuel 0 pt (.ok u) hp
            e he4
          rw [this] at hcall
          simp at hcall
        · simp at he4
          rw [he4] at hcall
          simp at hcall
      · rename_i s2 h1
        obtain ⟨hno, hs2⟩ := take_control_ok_inv h1
        have hks : s2.key.isSome = true := by rw [hs2]; exact htok 1 hno
        simp only [Option.some.injEq, Prod.mk.injEq] at hrun
        rw [← hrun.1] at he
        rcases List.mem_cons.mp he with rfl | he2
        · simp at hcall
        rcases List.mem_cons.mp he2 with rfl | he3
        · simp at hcall
        rcases List.mem_append.mp he3 with he4 | he4
        · have := pollLoop_entry_shape _ T.pollResps fuel 0 pt (.ok u) hp
            e he4
          rw [this] at hcall
          simp at hcall
        · rcases List.mem_cons.mp he4 with rfl | he5
          · simp at hcall
          · rw [finish_entry_key he5]; exact hks

/-- Transport realising the recovery scenario: first `take_control`
rejected with `409`, reboot accepted, every poll reports `"Execution"`,
second `take_control` accepted with token `"xyz"`. -/
def recoveryOkTransport : Transport where
  takeResps := fun k =>
    if k = 0 then ⟨409, []⟩ else ⟨200, [("token", some "xyz")]⟩
  rebootResp := ⟨200, []⟩
  pollResps := fun _ => ⟨200, [("status", some "Execution")]⟩
  unlockResp := ⟨200, []⟩
  activateResp := ⟨200, []⟩

/-- Transport on which every `take_control` is rejected with `409` while
the polls do reach `"Execution"`. -/
def recoveryFailTransport : Transport where
  takeResps := fun _ => ⟨409, []⟩
  rebootResp := ⟨200, []⟩
  pollResps := fun _ => ⟨200, [("status", some "Execution")]⟩
  unlockResp := ⟨200, []⟩
  activateResp := ⟨200, []⟩

/-- Witness for `C2_recovery_call_order` on `recoveryOkTransport` with the
first poll already reading `"Execution"`. -/
theorem C2_recovery_call_order_witness :
    errorStatus (recoveryOkTransport.takeResps 0) ∧
    (0 : Nat) < 1 ∧
    (∀ j, j ≤ 0 → ¬ errorStatus (recoveryOkTransport.pollResps j)) ∧
    (∀ j, j < 0 → jsonGet (recoveryOkTransport.pollResps j).json "status"
      ≠ some "Execution") ∧
    jsonGet (recoveryOkTransport.pollResps 0).json "status"
      = some "Execution" ∧
    ¬ errorStatus (recoveryOkTransport.takeResps 1) ∧
    (∃ tr res,
      enable_robot "172.16.0.2" "admin" "pw" recoveryOkTransport 1 =
        some (tr, res) ∧
      ∃ rest, (rest = [] ∨ rest = [CallName.activateFci]) ∧
        tr.map TraceEntry.call =
          CallName.takeControl :: CallName.reboot ::
            List.replicate (0 + 1) CallName.getOperatingMode ++
            CallName.takeControl :: CallName.unlockJoints :: rest ∧
        (tr.map TraceEntry.call).count CallName.reboot = 1 ∧
        (tr.map TraceEntry.call).count CallName.takeControl = 2 ∧
        1 ≤ (tr.map TraceEntry.call).count CallName.getOperatingMode) :=
  ⟨by decide, by omega, fun j _ => by
     show ¬ errorStatus ⟨200, [("status", some "Execution")]⟩; decide,
   fun j hj => absurd hj (by omega), rfl, by decide,
   C2_recovery_call_order "172.16.0.2" "admin" "pw" recoveryOkTransport 0 1
     (by decide) (by omega) (fun j _ => by
     show ¬ errorStatus ⟨200, [("status", some "Execution")]⟩; decide)
     (fun j hj => absurd hj (by omega)) rfl (by decide)⟩

/-- Witness for `C6_double_acquisition_failure` on
`recoveryFailTransport`. -/
theorem C6_double_acquisition_failure_witness :
    errorStatus (recoveryFailTransport.takeResps 0) ∧
    (0 : Nat) < 1 ∧
    (∀ j, j ≤ 0 → ¬ errorStatus (recoveryFailTransport.pollResps j)) ∧
    (∀ j, j < 0 → jsonGet (recoveryFailTransport.pollResps j).json "status"
      ≠ some "Execution") ∧
    jsonGet (recoveryFailTransport.pollResps 0).json "status"
      = some "Execution" ∧
    errorStatus (recoveryFailTransport.takeResps 1) ∧
    (∃ tr,
      enable_robot "172.16.0.2" "admin" "pw" recoveryFailTransport 1 =
        some (tr,
          .error (.httpError (recoveryFailTransport.takeResps 1).statusCode)) ∧
      tr.map TraceEntry.call =
        CallName.takeControl :: CallName.reboot ::
          List.replicate (0 + 1) CallName.getOperatingMode ++
          [CallName.takeControl] ∧
      (tr.map TraceEntry.call).count CallName.takeControl = 2 ∧
      CallName.unlockJoints ∉ tr.map TraceEntry.call) :=
  ⟨by decide, by omega, fun j _ => by
     show ¬ errorStatus ⟨200, [("status", some "Execution")]⟩; decide,
   fun j hj => absurd hj (by omega), rfl, by decide,
   C6_double_acquisition_failure "172.16.0.2" "admin" "pw"
     recoveryFailTransport 0 1 (by decide) (by omega)
     (fun j _ => by
     show ¬ errorStatus ⟨200, [("status", some "Execution")]⟩; decide) (fun j hj => absurd hj (by omega)) rfl
     (by decide)⟩

/-- Transport on which every `take_control` response carries a token. -/
def tokenedTransport : Transport where
  takeResps := fun _ => ⟨200, [("token", some "tok")]⟩
  rebootResp := ⟨200, []⟩
  pollResps := fun _ => ⟨200, [("status", some "Execution")]⟩
  unlockResp := ⟨200, []⟩
  activateResp := ⟨200, []⟩

/-- Witness for `C5_no_unlock_before_token` on `tokenedTransport`. -/
theorem C5_no_unlock_before_token_witness :
    (∀ k, ¬ errorStatus (tokenedTransport.takeResps k) →
      (jsonGet (tokenedTransport.takeResps k).json "token").isSome
        = true) ∧
    (∀ tr res,
      enable_robot "172.16.0.2" "admin" "pw" tokenedTransport 1 =
        some (tr, res) →
      ∀ e ∈ tr, (e.call = CallName.unlockJoints ∨
                 e.call = CallName.activateFci) →
        e.keyAtCall.isSome = true) :=
  ⟨fun k _ => by
     show (jsonGet [("token", some "tok")] "token").isSome = true; decide,
   C5_no_unlock_before_token "172.16.0.2" "admin" "pw" tokenedTransport 1
     (fun k _ => by
     show (jsonGet [("token", some "tok")] "token").isSome = true; decide)⟩

end FrankaDeskApi
